import Mathlib

/-!
Shallow embedding of the train-ticket chat-bot plugin (src/main.py).

The plugin registers two handlers:
  * `ticket_query` — parses a whitespace-split command, performs one HTTP GET
    against the ticket API, and emits a formatted list of trains;
  * `handle_choice` — regex-gated on a single digit 1-8, reads the per-user
    session cache and emits a detail message for the chosen train.

Machine-level effects are made explicit: each handler is a pure function of
its inputs plus a `WireOutcome` describing the one network interaction, and
returns the emitted chat outputs, the log lines written, and the number of
network calls performed.
-/

/-- A chat result yielded by a handler: either a plain message or an error
message (mirrors `CommandResult().message` / `CommandResult().error`). -/
inductive Output
  | message (s : String)
  | error (s : String)
deriving DecidableEq

/-- A seat-class record of a train row: name, availability status text,
price (rendered verbatim, so kept as a string). -/
structure Seat where
  name : String
  status : String
  price : String
deriving DecidableEq

/-- A train row as returned by the external API.  Field names follow the
JSON keys read by src/main.py.  The fields are total here: the code reads
them with `train['...']` (and `train.get('seats', [])` for the seat list),
and no claim exercises the missing-key path. -/
structure Train where
  TrainNumber : String
  TrainType : String
  DepartTime : String
  DestTime : String
  TotalTime : String
  Depart : String
  Dest : String
  seats : List Seat
deriving DecidableEq

/-- The JSON body of an API response: the status-code field (absent keys map
to `none`, as `result.get("code")` would yield `None`) and the `data` row
list (`result.get("data", [])` defaults a missing key to `[]`). -/
structure ApiResponse where
  code : Option String
  data : List Train
deriving DecidableEq

/-- The outcome of the single HTTP GET: either a response with an HTTP
status and (when status 200) a parsed JSON body, or a transport exception
carrying its message. -/
inductive WireOutcome
  | response (status : Nat) (body : ApiResponse)
  | exn (msg : String)
deriving DecidableEq

/-- One handler invocation's observable effects: chat outputs in order,
log lines written via `logger.error`, and how many network calls ran. -/
structure QueryRun where
  outputs : List Output
  logs : List String
  fetchCalls : Nat
deriving DecidableEq

/-- Does `needle` occur at the head of `hay`? (character lists) -/
def startsWithList : List Char → List Char → Bool
  | [], _ => true
  | _ :: _, [] => false
  | a :: as, b :: bs => a == b && startsWithList as bs

/-- Does `needle` occur anywhere in `hay`? (character lists) -/
def containsList (needle : List Char) : List Char → Bool
  | [] => startsWithList needle []
  | c :: rest => startsWithList needle (c :: rest) || containsList needle rest

/-- Python's `sub in s` substring test, on the code-point sequences. -/
def strContains (s sub : String) : Bool :=
  containsList sub.data s.data

/-- Accumulator loop for `pySplit`: walk the characters, collecting the
current (reversed) token in `acc` and closing it at each whitespace run. -/
def splitTokens : List Char → List Char → List String
  | [], acc => if acc = [] then [] else [String.mk acc.reverse]
  | c :: rest, acc =>
      if c.isWhitespace then
        if acc = [] then splitTokens rest []
        else String.mk acc.reverse :: splitTokens rest []
      else splitTokens rest (c :: acc)

/-- Python's `str.split()` with no argument: split on runs of whitespace,
dropping empty pieces. -/
def pySplit (s : String) : List String :=
  splitTokens s.data []

/-- Python's `str.strip()`: drop leading and trailing whitespace. -/
def pyStrip (s : String) : String :=
  String.mk (((s.data.dropWhile Char.isWhitespace).reverse.dropWhile
    Char.isWhitespace).reverse)

/-- Digit value of a character, `none` for non-digits. -/
def digitVal (c : Char) : Option Nat :=
  if c.isDigit then some (c.toNat - 48) else none

/-- Accumulator loop for `pyToNat?`. -/
def pyToNatAux : List Char → Nat → Option Nat
  | [], acc => some acc
  | c :: rest, acc =>
      match digitVal c with
      | some d => pyToNatAux rest (acc * 10 + d)
      | none => none

/-- Python's `int()` on a non-negative decimal string: all-digit strings
parse, anything else (including the empty string) does not. -/
def pyToNat? : List Char → Option Nat
  | [] => none
  | cs => pyToNatAux cs 0

/-- A Python value that is either a string or a list of strings.  Needed
because src/main.py (lines 79-82) assigns `departure = args` etc., binding
the whole argument *list* where its docstring promises single tokens. -/
inductive PyVal
  | str (s : String)
  | list (xs : List String)
deriving DecidableEq

/-- Python `repr` of a string as used when a list is formatted inside an
f-string (quote-free inputs assumed, so no escaping arises). -/
def pyRepr (s : String) : String :=
  "'" ++ s ++ "'"

/-- Python `str()` of a `PyVal`: strings render verbatim, lists render as
`['a', 'b']`. -/
def pyStr : PyVal → String
  | .str s => s
  | .list xs => "[" ++ String.intercalate ", " (xs.map pyRepr) ++ "]"

/-- The query parameters built by `ticket_query` (src/main.py lines 78-93).
Faithful to the source text, where the subscripts are missing:
`departure = args`, `arrival = args`, `date = args if len(args) >= 4 else
datetime.now().strftime("%Y-%m-%d")`, `train_type = args if len(args) >= 5
else "高铁"` — each bound value is the entire token list when the length
guard holds. -/
structure PyParams where
  departure : PyVal
  arrival : PyVal
  date : PyVal
  form : PyVal
  type : PyVal
deriving DecidableEq

/-- Parameter parsing of `ticket_query`, as written in src/main.py. -/
def parse_params (args : List String) (today : String) : PyParams :=
  { departure := .list args
    arrival := .list args
    date := if args.length ≥ 4 then .list args else .str today
    form := if args.length ≥ 5 then .list args else .str "高铁"
    type := .str "json" }

/-- The log line `logger.error(f"API请求失败 HTTP {resp.status}")`. -/
def httpFailLog (status : Nat) : String :=
  "API请求失败 HTTP " ++ toString status

/-- The log line `logger.error(f"票务查询异常: {str(e)}", ...)`. -/
def exnLog (msg : String) : String :=
  "票务查询异常: " ++ msg

/-- `fetch_tickets` (src/main.py lines 24-35): returns the parsed JSON body,
or `none` after logging when the HTTP status is not 200 or a transport
exception occurs.  Second component: the log lines it writes. -/
def fetch_tickets : WireOutcome → Option ApiResponse × List String
  | .response status body =>
      if status ≠ 200 then (none, [httpFailLog status]) else (some body, [])
  | .exn m => (none, [exnLog m])

/-- One numbered entry of the train list,
`f"{idx}. {train['TrainNumber']} {train['DepartTime']}→{train['DestTime']} ({train['TotalTime']})"`. -/
def listEntry (idx : Nat) (t : Train) : String :=
  toString idx ++ ". " ++ t.TrainNumber ++ " " ++ t.DepartTime ++ "→"
    ++ t.DestTime ++ " (" ++ t.TotalTime ++ ")"

/-- The `for idx, train in enumerate(trains[:8], 1)` append loop of
`_build_list_message`. -/
def listLoop : List Train → Nat → List String
  | [], _ => []
  | t :: rest, idx => listEntry idx t :: listLoop rest (idx + 1)

/-- `_build_list_message` (src/main.py lines 37-46): header line followed by
one numbered entry per train, capped at the first 8 rows. -/
def _build_list_message (trains : List Train) : List String :=
  "🚄 找到以下车次（点击编号查看详情）：" :: listLoop (trains.take 8) 1

/-- The fixed seat-class → emoji table `SEAT_EMOJI` (src/main.py lines 11-15). -/
def SEAT_EMOJI : List (String × String) :=
  [("硬座", "💺"), ("软座", "🪑"), ("硬卧", "🛏️"),
   ("软卧", "🛌"), ("无座", "🚶"), ("商务座", "💎"),
   ("一等座", "💺"), ("二等座", "🪑")]

/-- The availability glyph of a seat line (src/main.py line 60):
`"✅" if "充足" in seat['status'] else "⚠️" if "紧张" in seat['status'] else "❌"`. -/
def statusGlyph (status : String) : String :=
  if strContains status "充足" then "✅"
  else if strContains status "紧张" then "⚠️"
  else "❌"

/-- One seat line of the detail message (src/main.py lines 58-61):
emoji from `SEAT_EMOJI` with fallback `🎫`, the class name, the
availability glyph, and the price verbatim. -/
def seatLine (seat : Seat) : String :=
  (SEAT_EMOJI.lookup seat.name).getD "🎫" ++ " " ++ seat.name ++ ": "
    ++ statusGlyph seat.status ++ " ￥" ++ seat.price

/-- The `for seat in train.get('seats', []): msg.append(...)` loop of
`_build_detail_message`. -/
def detailLoop : List Seat → List String → List String
  | [], msg => msg
  | s :: rest, msg => detailLoop rest (msg ++ [seatLine s])

/-- The five header lines of the detail message (src/main.py lines 50-56). -/
def detailHeader (t : Train) : List String :=
  ["🚂 车次：" ++ t.TrainNumber ++ " (" ++ t.TrainType ++ ")",
   "⏰ 时间：" ++ t.DepartTime ++ " → " ++ t.DestTime,
   "⏳ 历时：" ++ t.TotalTime,
   "📍 车站：" ++ t.Depart ++ " → " ++ t.Dest,
   "\n🎟️ 票务信息："]

/-- `_build_detail_message` (src/main.py lines 48-63). -/
def _build_detail_message (t : Train) : String :=
  String.intercalate "\n" (detailLoop t.seats (detailHeader t))

/-- The "insufficient arguments" error text (src/main.py lines 71-75). -/
def insufficientArgsMsg : String :=
  "❌ 参数不足！使用示例：\n/火车票 北京 上海\n/火车票 成都 重庆 2023-12-25 高铁"

/-- The generic query-failure error text (src/main.py line 97). -/
def queryFailMsg : String :=
  "😢 查询失败，可能铁轨被小动物占领了～"

/-- The "no matches" message (src/main.py line 102). -/
def noTrainsMsg : String :=
  "🤷 没有找到符合条件的列车呢～"

/-- The digit-reply prompt (src/main.py line 110). -/
def promptMsg : String :=
  "💡 请回复编号查看详情（输入1-8）："

/-- The "searching..." acknowledgment message (src/main.py line 85). -/
def ackMsg (p : PyParams) : String :=
  "🔍 正在搜索 " ++ pyStr p.departure ++ " → " ++ pyStr p.arrival
    ++ " 的" ++ pyStr p.form ++ "信息..."

/-- `ticket_query` (src/main.py lines 65-114) as a function of the raw
message text, the current date string, and the wire outcome of the single
HTTP GET.  Outputs, logs and the network-call count are returned. -/
def ticket_query (message_str today : String) (wire : WireOutcome) : QueryRun :=
  let args := pySplit message_str
  if args.length < 3 then
    { outputs := [.error insufficientArgsMsg], logs := [], fetchCalls := 0 }
  else
    let p := parse_params args today
    let ack := Output.message (ackMsg p)
    let fr := fetch_tickets wire
    match fr.1 with
    | none =>
        { outputs := [ack, .error queryFailMsg], logs := fr.2, fetchCalls := 1 }
    | some r =>
        if r.code ≠ some "200" then
          { outputs := [ack, .error queryFailMsg], logs := fr.2, fetchCalls := 1 }
        else
          match r.data with
          | [] =>
              { outputs := [ack, .message noTrainsMsg], logs := fr.2, fetchCalls := 1 }
          | trains =>
              { outputs := [ack,
                            .message (String.intercalate "\n" (_build_list_message trains)),
                            .message promptMsg],
                logs := fr.2, fetchCalls := 1 }

/-- The per-user session cache: user id → most recent cached row list. -/
def Cache : Type := Nat → Option (List Train)

/-- Modelled from the spec: the session-cache write of the Query Handler.
src/main.py's `ticket_query` never stores its results and its companion
`_get_cached_data` is undefined there; the spec (§3, §4.1, §9) names an
explicit-caching variant of this repository, not under src/, in which a
successful query with at least one row overwrites the invoking user's cache
entry with exactly the returned row list.  The control flow below mirrors
src/main.py's `ticket_query`; only the cache write is taken from the spec. -/
def ticket_query_cached (uid : Nat) (message_str today : String)
    (wire : WireOutcome) (cache : Cache) : QueryRun × Cache :=
  let run := ticket_query message_str today wire
  let args := pySplit message_str
  if args.length < 3 then (run, cache)
  else
    match (fetch_tickets wire).1 with
    | none => (run, cache)
    | some r =>
        if r.code ≠ some "200" then (run, cache)
        else
          match r.data with
          | [] => (run, cache)
          | trains => (run, fun u => if u = uid then some trains else cache u)

/-- Modelled from the spec: the user-facing "session expired" error text of
the Selection Handler (spec §4.2); src/main.py carries no such message
because its caching variant is not under src/. -/
def sessionExpiredMsg : String :=
  "⏰ 会话已过期，请重新查询～"

/-- The "invalid number" error text (src/main.py line 127). -/
def invalidChoiceMsg : String :=
  "⚠️ 请输入有效编号哦～"

/-- The generic detail-failure error text (src/main.py line 131), emitted
when the handler body raises (e.g. an index error). -/
def detailFailMsg : String :=
  "💥 详情查询失败"

/-- `int(event.message_str.strip())` for the regex-gated digit replies. -/
def choiceOf (message_str : String) : Nat :=
  (pyToNat? (pyStrip message_str).data).getD 0

/-- The host framework's regex gate `^[1-8]$` on selection replies. -/
def isChoiceMsg (s : String) : Bool :=
  ["1", "2", "3", "4", "5", "6", "7", "8"].contains s

/-- `handle_choice` (src/main.py lines 116-131).  Modelled from the spec in
one place: the cache read goes through the explicit per-user session cache
of the spec's caching variant (src/main.py calls the undefined
`_get_cached_data`), and a missing entry yields the "session expired" error
(spec §4.2).  The digit parse, the range check `1 <= choice <= len(trains)`,
the detail formatting on a valid index, and the "invalid number" error
follow src/main.py. -/
def handle_choice (uid : Nat) (message_str : String) (cache : Cache) : List Output :=
  let choice := choiceOf message_str
  match cache uid with
  | none => [.error sessionExpiredMsg]
  | some trains =>
      if 1 ≤ choice ∧ choice ≤ trains.length then
        match trains.get? (choice - 1) with
        | some t => [.message (_build_detail_message t)]
        | none => [.error detailFailMsg]
      else
        [.error invalidChoiceMsg]

/-- A concrete seat record used to instantiate the theorems. -/
def sampleSeat : Seat :=
  { name := "二等座", status := "有票，余票充足", price := "553" }

/-- A concrete train row used to instantiate the theorems. -/
def sampleTrain : Train :=
  { TrainNumber := "G1", TrainType := "高速动车", DepartTime := "09:00",
    DestTime := "13:28", TotalTime := "04:28", Depart := "北京南",
    Dest := "上海虹桥", seats := [sampleSeat] }

theorem detailLoop_eq (seats : List Seat) (msg : List String) :
    detailLoop seats msg = msg ++ seats.map seatLine := by
  induction seats generalizing msg with
  | nil => simp [detailLoop]
  | cons s rest ih => simp [detailLoop, ih]

theorem listLoop_eq (trains : List Train) (idx : Nat) :
    listLoop trains idx = (trains.enumFrom idx).map (fun p => listEntry p.1 p.2) := by
  induction trains generalizing idx with
  | nil => simp [listLoop]
  | cons t rest ih => simp [listLoop, ih, List.enumFrom]

/-- C4: for every command text that splits into fewer than 3
whitespace-separated tokens, `ticket_query` emits exactly the
"insufficient arguments" error, writes no log, and performs no
network call. -/
theorem insufficient_args_no_network (msg today : String) (wire : WireOutcome)
    (h : (pySplit msg).length < 3) :
    ticket_query msg today wire =
      { outputs := [.error insufficientArgsMsg], logs := [], fetchCalls := 0 } := by
  simp [ticket_query, h]

theorem insufficient_args_no_network_witness :
    ticket_query "火车票 北京" "2024-01-01" (.exn "超时") =
      { outputs := [.error insufficientArgsMsg], logs := [], fetchCalls := 0 } :=
  insufficient_args_no_network "火车票 北京" "2024-01-01" (.exn "超时") (by decide)

/-- C5 counterexample: on the exact command text "火车票 北京 上海" the
query handler does not emit the insufficient-arguments error — the text
splits into 3 tokens, so the `len(args) < 3` check passes and the network
call is performed. -/
theorem three_token_command_queries :
    Output.error insufficientArgsMsg ∉
        (ticket_query "火车票 北京 上海" "2024-01-01" (.exn "超时")).outputs
    ∧ (ticket_query "火车票 北京 上海" "2024-01-01" (.exn "超时")).fetchCalls = 1 := by
  decide

/-- C5 amended: the insufficient-arguments error is emitted for the command
text "火车票 北京" (only one argument after the command word); the text
"火车票 北京 上海" carries two arguments after the command word, which the
handler accepts. -/
theorem two_token_command_insufficient :
    ticket_query "火车票 北京" "2024-01-01" (.exn "超时") =
      { outputs := [.error insufficientArgsMsg], logs := [], fetchCalls := 0 } := by
  decide

/-- C3: evaluating the parameter parse at the documented five-token command
shows the slip in src/main.py lines 79-82: `departure = args` binds the
whole token list, and likewise arrival, date and train class, instead of
the individual tokens promised by the handler's own docstring. -/
theorem parse_params_binds_whole_list :
    (parse_params (pySplit "火车票 北京 上海 2023-12-25 高铁") "2024-01-01").departure
        = PyVal.list ["火车票", "北京", "上海", "2023-12-25", "高铁"]
    ∧ (parse_params (pySplit "火车票 北京 上海 2023-12-25 高铁") "2024-01-01").departure
        ≠ PyVal.str "北京"
    ∧ (parse_params (pySplit "火车票 北京 上海 2023-12-25 高铁") "2024-01-01").arrival
        ≠ PyVal.str "上海"
    ∧ (parse_params (pySplit "火车票 北京 上海 2023-12-25 高铁") "2024-01-01").date
        ≠ PyVal.str "2023-12-25"
    ∧ (parse_params (pySplit "火车票 北京 上海 2023-12-25 高铁") "2024-01-01").form
        ≠ PyVal.str "高铁" := by
  decide

/-- C2: a selection reply from a user with no session-cache entry yields
exactly the session-expired error, whatever the digit, and that error text
differs from the transport/API failure texts. -/
theorem session_expired_without_cache (uid : Nat) (s : String) (cache : Cache)
    (_hs : isChoiceMsg s = true) (hcache : cache uid = none) :
    handle_choice uid s cache = [.error sessionExpiredMsg]
    ∧ sessionExpiredMsg ≠ queryFailMsg ∧ sessionExpiredMsg ≠ detailFailMsg := by
  refine ⟨?_, by decide, by decide⟩
  simp [handle_choice, hcache]

theorem session_expired_without_cache_witness :
    handle_choice 1 "5" (fun _ => none) = [.error sessionExpiredMsg]
    ∧ sessionExpiredMsg ≠ queryFailMsg ∧ sessionExpiredMsg ≠ detailFailMsg :=
  session_expired_without_cache 1 "5" (fun _ => none) (by decide) rfl

/-- C6: a regex-gated digit reply whose value exceeds the length of the
user's cached list yields the "invalid number" error and never the
internal-failure error of the exception path. -/
theorem invalid_number_beyond_cached (uid : Nat) (s : String) (cache : Cache)
    (ts : List Train) (_hs : isChoiceMsg s = true) (hcache : cache uid = some ts)
    (hlen : ts.length < choiceOf s) :
    handle_choice uid s cache = [.error invalidChoiceMsg]
    ∧ Output.error detailFailMsg ∉ handle_choice uid s cache := by
  have hcond : ¬ (1 ≤ choiceOf s ∧ choiceOf s ≤ ts.length) := by
    rintro ⟨-, h2⟩
    omega
  have hmain : handle_choice uid s cache = [.error invalidChoiceMsg] := by
    simp [handle_choice, hcache, hcond]
  refine ⟨hmain, ?_⟩
  rw [hmain]
  decide

theorem invalid_number_beyond_cached_witness :
    handle_choice 2 "3" (fun u => if u = 2 then some [sampleTrain] else none)
        = [.error invalidChoiceMsg]
    ∧ Output.error detailFailMsg ∉
        handle_choice 2 "3" (fun u => if u = 2 then some [sampleTrain] else none) :=
  invalid_number_beyond_cached 2 "3"
    (fun u => if u = 2 then some [sampleTrain] else none) [sampleTrain]
    (by decide) rfl (by decide)

/-- C10: the availability glyph scans for "充足" first — a status containing
both "充足" and "紧张" renders ✅; "紧张" is consulted only when "充足" is
absent; and ❌ is rendered exactly when neither substring occurs. -/
theorem glyph_precedence (s : String) :
    (strContains s "充足" = true ∧ strContains s "紧张" = true →
        statusGlyph s = "✅")
    ∧ (strContains s "充足" = false → strContains s "紧张" = true →
        statusGlyph s = "⚠️")
    ∧ (statusGlyph s = "❌" ↔
        strContains s "充足" = false ∧ strContains s "紧张" = false) := by
  cases h1 : strContains s "充足" <;> cases h2 : strContains s "紧张" <;>
    simp [statusGlyph, h1, h2]

theorem glyph_precedence_witness :
    statusGlyph "充足紧张" = "✅" ∧ statusGlyph "紧张" = "⚠️" :=
  ⟨(glyph_precedence "充足紧张").1 ⟨by decide, by decide⟩,
   (glyph_precedence "紧张").2.1 (by decide) (by decide)⟩

/-- C8 counterexample: an HTTP-200 response whose JSON status-code field is
"500" yields the generic failure message but writes no log line —
`ticket_query` checks `result.get("code") != "200"` without logging, so the
"logs the error" part of the claim fails for this error class. -/
theorem api_code_failure_unlogged :
    (ticket_query "火车票 北京 上海" "2024-01-01"
        (.response 200 ⟨some "500", []⟩)).outputs
      = [.message (ackMsg (parse_params ["火车票", "北京", "上海"] "2024-01-01")),
         .error queryFailMsg]
    ∧ (ticket_query "火车票 北京 上海" "2024-01-01"
        (.response 200 ⟨some "500", []⟩)).logs = [] := by
  decide

/-- C8 amended: past the argument check, every failing query — non-200 HTTP
status, transport exception, or JSON status-code field other than "200" —
emits exactly the acknowledgment followed by the single generic failure
message and performs exactly one network call (no retry); the first two
error classes write one log line, while the JSON status-code class writes
none. -/
theorem query_failure_paths (msg today : String)
    (hargs : 3 ≤ (pySplit msg).length) :
    (∀ status body, status ≠ 200 →
        ticket_query msg today (.response status body) =
          { outputs := [.message (ackMsg (parse_params (pySplit msg) today)),
                        .error queryFailMsg],
            logs := [httpFailLog status], fetchCalls := 1 })
    ∧ (∀ e, ticket_query msg today (.exn e) =
          { outputs := [.message (ackMsg (parse_params (pySplit msg) today)),
                        .error queryFailMsg],
            logs := [exnLog e], fetchCalls := 1 })
    ∧ (∀ body, body.code ≠ some "200" →
        ticket_query msg today (.response 200 body) =
          { outputs := [.message (ackMsg (parse_params (pySplit msg) today)),
                        .error queryFailMsg],
            logs := [], fetchCalls := 1 }) := by
  have h3 : ¬ (pySplit msg).length < 3 := Nat.not_lt.2 hargs
  refine ⟨?_, ?_, ?_⟩
  · intro status body hstatus
    simp [ticket_query, fetch_tickets, h3, hstatus]
  · intro e
    simp [ticket_query, fetch_tickets, h3]
  · intro body hbody
    simp [ticket_query, fetch_tickets, h3, hbody]

theorem query_failure_paths_witness :
    ticket_query "火车票 北京 上海" "2024-01-01" (.response 200 ⟨some "500", []⟩) =
      { outputs := [.message (ackMsg (parse_params (pySplit "火车票 北京 上海") "2024-01-01")),
                    .error queryFailMsg],
        logs := [], fetchCalls := 1 } :=
  (query_failure_paths "火车票 北京 上海" "2024-01-01" (by decide)).2.2
    ⟨some "500", []⟩ (by decide)

/-- C7: a successful query with at least one row emits the acknowledgment,
then the list message — the header plus one numbered entry per row for the
first 8 rows, numbered from 1 in API order, each showing train number,
departure→arrival time and duration — and then the digit-reply prompt; the
number of entries is min(N, 8). -/
theorem success_list_message (msg today : String) (r : ApiResponse)
    (hargs : 3 ≤ (pySplit msg).length) (hcode : r.code = some "200")
    (hdata : r.data ≠ []) :
    (ticket_query msg today (.response 200 r)).outputs =
      [.message (ackMsg (parse_params (pySplit msg) today)),
       .message (String.intercalate "\n"
         ("🚄 找到以下车次（点击编号查看详情）：" ::
           ((r.data.take 8).enumFrom 1).map (fun p => listEntry p.1 p.2))),
       .message promptMsg]
    ∧ (((r.data.take 8).enumFrom 1).map (fun p => listEntry p.1 p.2)).length
        = min r.data.length 8 := by
  have h3 : ¬ (pySplit msg).length < 3 := Nat.not_lt.2 hargs
  obtain ⟨t, ts, hcons⟩ := List.exists_cons_of_ne_nil hdata
  constructor
  · simp [ticket_query, fetch_tickets, h3, hcode, hcons, _build_list_message,
      listLoop_eq]
  · simp [List.enumFrom_length, List.length_take, Nat.min_comm]

theorem success_list_message_witness :
    (ticket_query "火车票 北京 上海" "2024-01-01"
        (.response 200 ⟨some "200", [sampleTrain]⟩)).outputs =
      [.message (ackMsg (parse_params (pySplit "火车票 北京 上海") "2024-01-01")),
       .message (String.intercalate "\n"
         ("🚄 找到以下车次（点击编号查看详情）：" ::
           ((([sampleTrain] : List Train).take 8).enumFrom 1).map
             (fun p => listEntry p.1 p.2))),
       .message promptMsg]
    ∧ (((([sampleTrain] : List Train).take 8).enumFrom 1).map
          (fun p => listEntry p.1 p.2)).length
        = min ([sampleTrain] : List Train).length 8 :=
  success_list_message "火车票 北京 上海" "2024-01-01" ⟨some "200", [sampleTrain]⟩
    (by decide) rfl (by decide)

/-- C1: after a successful query with at least one returned row, the
session-cache entry of the invoking user holds exactly the returned row
list, in API order (the cache write itself is the spec-modelled part of
`ticket_query_cached`). -/
theorem cache_overwritten_on_success (uid : Nat) (msg today : String)
    (r : ApiResponse) (cache : Cache) (hargs : 3 ≤ (pySplit msg).length)
    (hcode : r.code = some "200") (hdata : r.data ≠ []) :
    (ticket_query_cached uid msg today (.response 200 r) cache).2 uid
      = some r.data := by
  have h3 : ¬ (pySplit msg).length < 3 := Nat.not_lt.2 hargs
  obtain ⟨t, ts, hcons⟩ := List.exists_cons_of_ne_nil hdata
  simp [ticket_query_cached, fetch_tickets, h3, hcode, hcons]

theorem cache_overwritten_on_success_witness :
    (ticket_query_cached 7 "火车票 北京 上海" "2024-01-01"
        (.response 200 ⟨some "200", [sampleTrain]⟩) (fun _ => none)).2 7
      = some [sampleTrain] :=
  cache_overwritten_on_success 7 "火车票 北京 上海" "2024-01-01"
    ⟨some "200", [sampleTrain]⟩ (fun _ => none) (by decide) rfl (by decide)

/-- C9: the detail message is exactly the newline-join of the five header
lines — train number and type, departure → arrival time, duration,
departure → arrival station names — followed by one line per seat class in
the row's seat list, each line carrying the emoji from the `SEAT_EMOJI`
table (generic 🎫 for unknown class names), the availability glyph (✅ when
the status contains "充足", else ⚠️ when it contains "紧张", else ❌), and
the price verbatim. -/
theorem detail_message_composition (t : Train) :
    _build_detail_message t =
      String.intercalate "\n"
        (["🚂 车次：" ++ t.TrainNumber ++ " (" ++ t.TrainType ++ ")",
          "⏰ 时间：" ++ t.DepartTime ++ " → " ++ t.DestTime,
          "⏳ 历时：" ++ t.TotalTime,
          "📍 车站：" ++ t.Depart ++ " → " ++ t.Dest,
          "\n🎟️ 票务信息："]
          ++ t.seats.map (fun seat =>
            (SEAT_EMOJI.lookup seat.name).getD "🎫" ++ " " ++ seat.name ++ ": "
              ++ (if strContains seat.status "充足" then "✅"
                  else if strContains seat.status "紧张" then "⚠️"
                  else "❌") ++ " ￥" ++ seat.price)) := by
  have hmap : seatLine = fun seat =>
      (SEAT_EMOJI.lookup seat.name).getD "🎫" ++ " " ++ seat.name ++ ": "
        ++ (if strContains seat.status "充足" then "✅"
            else if strContains seat.status "紧张" then "⚠️"
            else "❌") ++ " ￥" ++ seat.price := by
    funext seat
    simp [seatLine, statusGlyph]
  simp [_build_detail_message, detailLoop_eq, detailHeader, hmap]
